import Mathlib

/-!
# Verification of the Camelot-wheel harmonic transition engine

Shallow embedding of the repository's `src/camelot.rs`,
`src/camelot/transition.rs` and `src/camelot/search.rs`, together with
theorems settling the frozen claims about the key/mode model, the
transition catalog, the graph builder, the neighbor query and the
shortest-path search.

Conventions of the embedding:
* Rust `usize` indices are `Nat`; the `isize` shift amounts of
  `change_index` are mathematical `Int` (the wheel arithmetic is mod 12,
  far from any machine-width overflow); Rust `%` on `isize` is
  truncated division remainder, embedded as `Int.tmod`.
* fallible or panicking code returns `Option` / an explicit result type
  whose third constructor records a panic (`unwrap` on `None`).
-/

namespace Camelot

/-! ## Key/Mode data model (`src/camelot.rs`) -/

/-- The two-valued mode enumeration (`Minor = 0`, `Major = 1` in the
source; that discriminant order is also the derived `Ord`). -/
inductive Mode where
  | Minor : Mode
  | Major : Mode
deriving DecidableEq, Repr

/-- Discriminant of `Mode`, used for the derived `Ord` (`Minor = 0 < Major = 1`). -/
def Mode.rank : Mode → Nat
  | .Minor => 0
  | .Major => 1

/-- `Mode::swap` from the source: toggle between the two modes. -/
def Mode.swap : Mode → Mode
  | .Minor => .Major
  | .Major => .Minor

/-- The single error kind `ScaleError::InvalidScaleString`. -/
inductive ScaleError where
  | InvalidScaleString : ScaleError
deriving DecidableEq, Repr

/-- A Camelot key: a tonic pitch class (`usize` in the source) and a mode. -/
structure Key where
  tonic : Nat
  mode : Mode
deriving DecidableEq, Repr

/-- The derived lexicographic order on `Key` (`tonic` first, then `mode`). -/
def keyLE (a b : Key) : Prop :=
  a.tonic < b.tonic ∨ (a.tonic = b.tonic ∧ a.mode.rank ≤ b.mode.rank)

instance (a b : Key) : Decidable (keyLE a b) := by
  unfold keyLE; infer_instance

/-- `mod_cyclic` from the source:
`((num % modulus) + modulus) % modulus` on `isize`, with Rust `%` being
the truncated remainder (`Int.tmod`). -/
def mod_cyclic (num : Int) (modulus : Nat) : Int :=
  ((num.tmod modulus) + modulus).tmod modulus

/-- `Key::swap_kind`: same tonic, opposite mode. -/
def Key.swap_kind (k : Key) : Key :=
  { k with mode := k.mode.swap }

/-- `Key::change_index`: shift the tonic by `amount` through `mod_cyclic`
(the result of `mod_cyclic` is cast back to `usize`, embedded as `Int.toNat`). -/
def Key.change_index (k : Key) (amount : Int) : Key :=
  { k with tonic := (mod_cyclic ((k.tonic : Int) + amount) 12).toNat }

/-! ## Key parsing and formatting (`FromStr` / `Display` for `Key`) -/

/-- Result of running a Rust function returning `Result<α, ε>`, with a
third constructor for a panic (a failed `unwrap`). -/
inductive RustResult (α : Type) (ε : Type) where
  | ok : α → RustResult α ε
  | err : ε → RustResult α ε
  | panicked : RustResult α ε
deriving DecidableEq

/-- Whether a `RustResult` is the `err` constructor. -/
def RustResult.isErr {α ε : Type} : RustResult α ε → Bool
  | .err _ => true
  | _ => false

/-- `Mode::from_str`: `"A"` is Minor, `"B"` is Major, anything else the
typed `InvalidScaleString` error. -/
def Mode.from_str (s : String) : RustResult Mode ScaleError :=
  if s = "A" then .ok .Minor
  else if s = "B" then .ok .Major
  else .err .InvalidScaleString

/-- The alternatives of the first capture group of the source regex
`^(1|2|3|4|5|6|7|8|9|10|11|12)([AB])$`, in the order written. -/
def key_number_alternatives : List String :=
  ["1", "2", "3", "4", "5", "6", "7", "8", "9", "10", "11", "12"]

/-- A full anchored match of the source regex against `s`: the whole
string must be one of the number alternatives followed by exactly one of
`"A"`, `"B"`; on success the two capture groups are returned. -/
def regex_captures (s : String) : Option (String × String) :=
  key_number_alternatives.findSome? fun d =>
    (["A", "B"]).findSome? fun l =>
      if s = d ++ l then some (d, l) else none

/-- Value of a decimal digit character, `none` on a non-digit. -/
def digit_val (c : Char) : Option Nat :=
  if c.isDigit then some (c.toNat - 48) else none

/-- `str::parse::<usize>` restricted to plain decimal digit strings (the
only shape the regex capture can have): every character must be a digit,
the empty string fails. -/
def parse_usize (s : String) : Option Nat :=
  match s.data with
  | [] => none
  | ds => ds.foldlM (fun acc c => (digit_val c).map (fun d => 10 * acc + d)) 0

/-- `Key::from_str` from the source. The source calls
`re.captures(s).unwrap()`: a non-matching input makes the `unwrap` panic
(`RustResult.panicked`) — it does not reach any `Err` return. On a match,
the numeric capture parses as `usize` and the letter as a `Mode`, both
unwrapped. -/
def Key.from_str (s : String) : RustResult Key ScaleError :=
  match regex_captures s with
  | none => .panicked
  | some (d, l) =>
    match parse_usize d with
    | none => .panicked
    | some number =>
      match Mode.from_str l with
      | .ok mode => .ok { tonic := number - 1, mode := mode }
      | _ => .panicked

/-- `Display for Mode`: the single-letter token. -/
def Mode.display : Mode → String
  | .Minor => "A"
  | .Major => "B"

/-- `Display for Key`: `"{tonic+1}{mode}"`, the tonic printed 1-based. -/
def Key.display (k : Key) : String :=
  toString (k.tonic + 1) ++ k.mode.display

/-- `scale` constructor from the source. -/
def scale (tonic : Nat) (mode : Mode) : Key :=
  { tonic := tonic, mode := mode }

/-- `make_standard_scale`: the 24 keys, minor/major interleaved per tonic. -/
def make_standard_scale : List Key :=
  (List.range 12).flatMap fun i => [scale i Mode.Minor, scale i Mode.Major]

/-! ## Transition rules (`src/camelot/transition.rs`) -/

/-- The `KeyTransition` tagged union. -/
inductive KeyTransition where
  | Vertical : KeyTransition
  | Diagonal : KeyTransition
  | ChangeIndex : Int → KeyTransition
  | MajorToMinor : KeyTransition
  | FlatToMinor : KeyTransition
deriving DecidableEq, Repr

/-- `harmonic_transitions`: the fixed 10-entry catalog, in source order. -/
def harmonic_transitions : List KeyTransition :=
  [ .Vertical, .Diagonal, .MajorToMinor, .FlatToMinor,
    .ChangeIndex 1, .ChangeIndex 2, .ChangeIndex 7,
    .ChangeIndex (-1), .ChangeIndex (-2), .ChangeIndex (-7) ]

/-- `make_transition` with its fall-through made explicit: the source's
match arms in order, the four mode-guarded pairs as nested conditionals,
and `none` for the final `_ => unreachable!()` arm. -/
def make_transition_checked (k : Key) (t : KeyTransition) : Option Key :=
  match t with
  | .Vertical => some k.swap_kind
  | .ChangeIndex amount => some (k.change_index amount)
  | .Diagonal =>
    if k.mode = Mode.Major then some (k.swap_kind.change_index 1)
    else if k.mode = Mode.Minor then some (k.swap_kind.change_index (-1))
    else none
  | .FlatToMinor =>
    if k.mode = Mode.Minor then some (k.swap_kind.change_index (-4))
    else if k.mode = Mode.Major then some (k.swap_kind.change_index 4)
    else none
  | .MajorToMinor =>
    if k.mode = Mode.Minor then some (k.swap_kind.change_index 3)
    else if k.mode = Mode.Major then some (k.swap_kind.change_index (-3))
    else none

/-- Total form of `make_transition`; `make_transition_total` below shows
it agrees with `make_transition_checked` everywhere (the `unreachable!()`
arm is dead because `Mode` has exactly the two guarded values). -/
def make_transition (k : Key) (t : KeyTransition) : Key :=
  match t with
  | .Vertical => k.swap_kind
  | .ChangeIndex amount => k.change_index amount
  | .Diagonal =>
    match k.mode with
    | .Major => k.swap_kind.change_index 1
    | .Minor => k.swap_kind.change_index (-1)
  | .FlatToMinor =>
    match k.mode with
    | .Minor => k.swap_kind.change_index (-4)
    | .Major => k.swap_kind.change_index 4
  | .MajorToMinor =>
    match k.mode with
    | .Minor => k.swap_kind.change_index 3
    | .Major => k.swap_kind.change_index (-3)

/-- The transition table as the spec states it, word for word (§4.2 of
the spec): used only to compare against the source's `make_transition`. -/
def spec_transition_table (k : Key) (t : KeyTransition) : Key :=
  match t with
  | .Vertical => k.swap_kind
  | .ChangeIndex n => k.change_index n
  | .Diagonal =>
    match k.mode with
    | .Major => k.swap_kind.change_index 1
    | .Minor => k.swap_kind.change_index (-1)
  | .FlatToMinor =>
    match k.mode with
    | .Minor => k.swap_kind.change_index (-4)
    | .Major => k.swap_kind.change_index 4
  | .MajorToMinor =>
    match k.mode with
    | .Minor => k.swap_kind.change_index 3
    | .Major => k.swap_kind.change_index (-3)

/-! ## Graph builder and queries (`src/camelot/search.rs`) -/

/-- Lookup of a key's node index, the embedding of the `scale_to_index`
hash map (node indices are assigned in `make_standard_scale` order, so
the index of a key is its position in that list); `none` models a failed
lookup, which the source would `unwrap` into a panic. -/
def key_lookup (nodes : List Key) (k : Key) : Option Nat :=
  nodes.findIdx? (fun x => x = k)

/-- The built transition graph: the petgraph node-weight list together
with the edge list in insertion order, each edge a pair of node indices
with its `KeyTransition` label (undirected, multi-edges retained). -/
structure ScaleGraph where
  node_weights : List Key
  edges : List (Nat × Nat × KeyTransition)

/-- `make_scale_transition_graph`: one node per standard-scale key, and
for every key and every catalog transition one edge from the key to its
transition target. The two `unwrap`ped index lookups never fail (every
target is again a standard-scale key; `c4_graph_shape` below counts all
240 edges); a failed lookup is modeled by the out-of-range index
`nodes.length`. -/
def make_scale_transition_graph : ScaleGraph :=
  let nodes := make_standard_scale
  { node_weights := nodes
    edges := nodes.flatMap fun s =>
      harmonic_transitions.map fun t =>
        ((key_lookup nodes s).getD nodes.length,
         (key_lookup nodes (make_transition s t)).getD nodes.length,
         t) }

/-- The process-wide graph (`SCALE_TRANSITION_GRAPH`). -/
def scale_transition_graph : ScaleGraph := make_scale_transition_graph

/-- A partial search path, the `Path` struct of the source: cost so far,
current node, the transition that entered it, and the accumulated node
and transition-label sequences. The source's `Ord for Path` compares by
`cost` alone (reversed, so the `BinaryHeap` pops minimal cost). -/
structure SPath where
  cost : Nat
  node : Nat
  transition : Option KeyTransition
  path : List Nat
  transition_path : List KeyTransition
deriving DecidableEq

/-- `graph.edges(node)` of petgraph on an undirected graph: every edge
incident to the node, seen from that node (the reported neighbor is the
other endpoint). Enumeration order within the list is a tie-breaking
detail the source's cost-only `Ord` never observes. -/
def incident_edges (edges : List (Nat × Nat × KeyTransition)) (i : Nat) :
    List (Nat × KeyTransition) :=
  edges.filterMap fun e =>
    if e.1 = i then some (e.2.1, e.2.2)
    else if e.2.1 = i then some (e.1, e.2.2)
    else none

/-- The per-node adjacency lists of a graph (petgraph's internal edge
representation: each node carries the list of its incident edges). -/
def adjacency_lists (g : ScaleGraph) : List (List (Nat × KeyTransition)) :=
  (List.range g.node_weights.length).map (incident_edges g.edges)

/-- The `BinaryHeap<Path>` model: paths bucketed by cost (`buckets[c]`
holds the pending paths of cost `c`). `Path`'s `Ord` compares cost only,
so the heap contract fixes pops only up to cost; this model pops from
the lowest non-empty bucket. -/
def bpush (buckets : List (List SPath)) (c : Nat) (p : SPath) :
    List (List SPath) :=
  match buckets, c with
  | [], 0 => [[p]]
  | [], Nat.succ c => [] :: bpush [] c p
  | b :: bs, 0 => (p :: b) :: bs
  | b :: bs, Nat.succ c => b :: bpush bs c p

/-- Pop a minimal-cost pending path from the bucketed heap. -/
def bpop (buckets : List (List SPath)) : Option (SPath × List (List SPath)) :=
  match buckets with
  | [] => none
  | [] :: bs => (bpop bs).map (fun r => (r.1, [] :: r.2))
  | (p :: b) :: bs => some (p, b :: bs)

/-- One iteration of the `while let Some(path) = min_heap.pop()` loop of
`multi_path_dijkstra`: the popped path first records its current node
(and entering transition); if it sits on the target it is accepted, and
the loop breaks (`some acc'`) once `n` paths are accepted; in either
other case the path is extended along every incident edge at cost + 1
and the rest of the loop (`rest`) continues. -/
def dijkstra_step (adj : List (List (Nat × KeyTransition))) (target : Nat)
    (n : Nat)
    (rest : List (List SPath) → List SPath → Option (List SPath))
    (heap : List (List SPath)) (acc : List SPath) : Option (List SPath) :=
  match bpop heap with
  | none => some acc
  | some (p0, heap1) =>
    let p : SPath :=
      { p0 with
        path := p0.path ++ [p0.node]
        transition_path := p0.transition_path ++ p0.transition.toList }
    let acc' := if p.node = target then acc ++ [p] else acc
    if p.node = target ∧ n ≤ acc'.length then some acc'
    else
      let heap2 := ((adj[p.node]?).getD []).foldl
        (fun h e =>
          bpush h (p.cost + 1)
            { cost := p.cost + 1, node := e.1, transition := some e.2,
              path := p.path, transition_path := p.transition_path })
        heap1
      rest heap2 acc'

/-- The search loop, with explicit fuel; `none` means the fuel ran out
(the source loop has no such bound — `c10_search_terminates` shows the
concrete fuel below is never exhausted). -/
def dijkstra_loop (adj : List (List (Nat × KeyTransition))) (target : Nat)
    (n : Nat) :
    Nat → List (List SPath) → List SPath → Option (List SPath)
  | 0, _, _ => none
  | Nat.succ fuel, heap, acc =>
    dijkstra_step adj target n (dijkstra_loop adj target n fuel) heap acc

/-- The same loop expressed through the bare `Nat.rec` recursor: the
equation-compiler form above unfolds through `Nat.brecOn`, whose
course-of-values structure is needlessly expensive to reduce inside the
kernel; `dijkstra_loop_fast_eq` proves both loops agree everywhere, and
the per-pair certificates are evaluated on this form. -/
def dijkstra_loop_fast (adj : List (List (Nat × KeyTransition)))
    (target : Nat) (n : Nat) (fuel : Nat) :
    List (List SPath) → List SPath → Option (List SPath) :=
  Nat.rec (motive := fun _ =>
      List (List SPath) → List SPath → Option (List SPath))
    (fun _ _ => none)
    (fun _ ih => dijkstra_step adj target n ih)
    fuel

/-- `multi_path_dijkstra`: run the search from the initial heap holding
the zero-cost path at `source`. -/
def multi_path_dijkstra (g : ScaleGraph) (source target : Nat) (n : Nat)
    (fuel : Nat) : Option (List SPath) :=
  dijkstra_loop (adjacency_lists g) target n fuel
    (bpush [] 0
      { cost := 0, node := source, transition := none, path := [],
        transition_path := [] })
    []

/-- The 24 standard-scale keys as a literal table;
`node_table_eq` checks it equals `make_standard_scale`. -/
def node_table : List Key :=
  [{ tonic := 0, mode := Mode.Minor },
   { tonic := 0, mode := Mode.Major },
   { tonic := 1, mode := Mode.Minor },
   { tonic := 1, mode := Mode.Major },
   { tonic := 2, mode := Mode.Minor },
   { tonic := 2, mode := Mode.Major },
   { tonic := 3, mode := Mode.Minor },
   { tonic := 3, mode := Mode.Major },
   { tonic := 4, mode := Mode.Minor },
   { tonic := 4, mode := Mode.Major },
   { tonic := 5, mode := Mode.Minor },
   { tonic := 5, mode := Mode.Major },
   { tonic := 6, mode := Mode.Minor },
   { tonic := 6, mode := Mode.Major },
   { tonic := 7, mode := Mode.Minor },
   { tonic := 7, mode := Mode.Major },
   { tonic := 8, mode := Mode.Minor },
   { tonic := 8, mode := Mode.Major },
   { tonic := 9, mode := Mode.Minor },
   { tonic := 9, mode := Mode.Major },
   { tonic := 10, mode := Mode.Minor },
   { tonic := 10, mode := Mode.Major },
   { tonic := 11, mode := Mode.Minor },
   { tonic := 11, mode := Mode.Major }]

/-- The per-node adjacency lists of the built graph as a literal table;
`adjacency_table_eq` checks it equals `adjacency_lists scale_transition_graph`. -/
def adjacency_table : List (List (Nat × KeyTransition)) :=
  [[(1, KeyTransition.Vertical),
    (23, KeyTransition.Diagonal),
    (7, KeyTransition.MajorToMinor),
    (17, KeyTransition.FlatToMinor),
    (2, KeyTransition.ChangeIndex 1),
    (4, KeyTransition.ChangeIndex 2),
    (14, KeyTransition.ChangeIndex 7),
    (22, KeyTransition.ChangeIndex (-1)),
    (20, KeyTransition.ChangeIndex (-2)),
    (10, KeyTransition.ChangeIndex (-7)),
    (1, KeyTransition.Vertical),
    (2, KeyTransition.ChangeIndex (-1)),
    (4, KeyTransition.ChangeIndex (-2)),
    (7, KeyTransition.MajorToMinor),
    (10, KeyTransition.ChangeIndex 7),
    (14, KeyTransition.ChangeIndex (-7)),
    (17, KeyTransition.FlatToMinor),
    (20, KeyTransition.ChangeIndex 2),
    (22, KeyTransition.ChangeIndex 1),
    (23, KeyTransition.Diagonal)],
   [(0, KeyTransition.Vertical),
    (0, KeyTransition.Vertical),
    (2, KeyTransition.Diagonal),
    (18, KeyTransition.MajorToMinor),
    (8, KeyTransition.FlatToMinor),
    (3, KeyTransition.ChangeIndex 1),
    (5, KeyTransition.ChangeIndex 2),
    (15, KeyTransition.ChangeIndex 7),
    (23, KeyTransition.ChangeIndex (-1)),
    (21, KeyTransition.ChangeIndex (-2)),
    (11, KeyTransition.ChangeIndex (-7)),
    (2, KeyTransition.Diagonal),
    (3, KeyTransition.ChangeIndex (-1)),
    (5, KeyTransition.ChangeIndex (-2)),
    (8, KeyTransition.FlatToMinor),
    (11, KeyTransition.ChangeIndex 7),
    (15, KeyTransition.ChangeIndex (-7)),
    (18, KeyTransition.MajorToMinor),
    (21, KeyTransition.ChangeIndex 2),
    (23, KeyTransition.ChangeIndex 1)],
   [(0, KeyTransition.ChangeIndex 1),
    (1, KeyTransition.Diagonal),
    (3, KeyTransition.Vertical),
    (1, KeyTransition.Diagonal),
    (9, KeyTransition.MajorToMinor),
    (19, KeyTransition.FlatToMinor),
    (4, KeyTransition.ChangeIndex 1),
    (6, KeyTransition.ChangeIndex 2),
    (16, KeyTransition.ChangeIndex 7),
    (0, KeyTransition.ChangeIndex (-1)),
    (22, KeyTransition.ChangeIndex (-2)),
    (12, KeyTransition.ChangeIndex (-7)),
    (3, KeyTransition.Vertical),
    (4, KeyTransition.ChangeIndex (-1)),
    (6, KeyTransition.ChangeIndex (-2)),
    (9, KeyTransition.MajorToMinor),
    (12, KeyTransition.ChangeIndex 7),
    (16, KeyTransition.ChangeIndex (-7)),
    (19, KeyTransition.FlatToMinor),
    (22, KeyTransition.ChangeIndex 2)],
   [(1, KeyTransition.ChangeIndex 1),
    (2, KeyTransition.Vertical),
    (2, KeyTransition.Vertical),
    (4, KeyTransition.Diagonal),
    (20, KeyTransition.MajorToMinor),
    (10, KeyTransition.FlatToMinor),
    (5, KeyTransition.ChangeIndex 1),
    (7, KeyTransition.ChangeIndex 2),
    (17, KeyTransition.ChangeIndex 7),
    (1, KeyTransition.ChangeIndex (-1)),
    (23, KeyTransition.ChangeIndex (-2)),
    (13, KeyTransition.ChangeIndex (-7)),
    (4, KeyTransition.Diagonal),
    (5, KeyTransition.ChangeIndex (-1)),
    (7, KeyTransition.ChangeIndex (-2)),
    (10, KeyTransition.FlatToMinor),
    (13, KeyTransition.ChangeIndex 7),
    (17, KeyTransition.ChangeIndex (-7)),
    (20, KeyTransition.MajorToMinor),
    (23, KeyTransition.ChangeIndex 2)],
   [(0, KeyTransition.ChangeIndex 2),
    (2, KeyTransition.ChangeIndex 1),
    (3, KeyTransition.Diagonal),
    (5, KeyTransition.Vertical),
    (3, KeyTransition.Diagonal),
    (11, KeyTransition.MajorToMinor),
    (21, KeyTransition.FlatToMinor),
    (6, KeyTransition.ChangeIndex 1),
    (8, KeyTransition.ChangeIndex 2),
    (18, KeyTransition.ChangeIndex 7),
    (2, KeyTransition.ChangeIndex (-1)),
    (0, KeyTransition.ChangeIndex (-2)),
    (14, KeyTransition.ChangeIndex (-7)),
    (5, KeyTransition.Vertical),
    (6, KeyTransition.ChangeIndex (-1)),
    (8, KeyTransition.ChangeIndex (-2)),
    (11, KeyTransition.MajorToMinor),
    (14, KeyTransition.ChangeIndex 7),
    (18, KeyTransition.ChangeIndex (-7)),
    (21, KeyTransition.FlatToMinor)],
   [(1, KeyTransition.ChangeIndex 2),
    (3, KeyTransition.ChangeIndex 1),
    (4, KeyTransition.Vertical),
    (4, KeyTransition.Vertical),
    (6, KeyTransition.Diagonal),
    (22, KeyTransition.MajorToMinor),
    (12, KeyTransition.FlatToMinor),
    (7, KeyTransition.ChangeIndex 1),
    (9, KeyTransition.ChangeIndex 2),
    (19, KeyTransition.ChangeIndex 7),
    (3, KeyTransition.ChangeIndex (-1)),
    (1, KeyTransition.ChangeIndex (-2)),
    (15, KeyTransition.ChangeIndex (-7)),
    (6, KeyTransition.Diagonal),
    (7, KeyTransition.ChangeIndex (-1)),
    (9, KeyTransition.ChangeIndex (-2)),
    (12, KeyTransition.FlatToMinor),
    (15, KeyTransition.ChangeIndex 7),
    (19, KeyTransition.ChangeIndex (-7)),
    (22, KeyTransition.MajorToMinor)],
   [(2, KeyTransition.ChangeIndex 2),
    (4, KeyTransition.ChangeIndex 1),
    (5, KeyTransition.Diagonal),
    (7, KeyTransition.Vertical),
    (5, KeyTransition.Diagonal),
    (13, KeyTransition.MajorToMinor),
    (23, KeyTransition.FlatToMinor),
    (8, KeyTransition.ChangeIndex 1),
    (10, KeyTransition.ChangeIndex 2),
    (20, KeyTransition.ChangeIndex 7),
    (4, KeyTransition.ChangeIndex (-1)),
    (2, KeyTransition.ChangeIndex (-2)),
    (16, KeyTransition.ChangeIndex (-7)),
    (7, KeyTransition.Vertical),
    (8, KeyTransition.ChangeIndex (-1)),
    (10, KeyTransition.ChangeIndex (-2)),
    (13, KeyTransition.MajorToMinor),
    (16, KeyTransition.ChangeIndex 7),
    (20, KeyTransition.ChangeIndex (-7)),
    (23, KeyTransition.FlatToMinor)],
   [(0, KeyTransition.MajorToMinor),
    (3, KeyTransition.ChangeIndex 2),
    (5, KeyTransition.ChangeIndex 1),
    (6, KeyTransition.Vertical),
    (6, KeyTransition.Vertical),
    (8, KeyTransition.Diagonal),
    (0, KeyTransition.MajorToMinor),
    (14, KeyTransition.FlatToMinor),
    (9, KeyTransition.ChangeIndex 1),
    (11, KeyTransition.ChangeIndex 2),
    (21, KeyTransition.ChangeIndex 7),
    (5, KeyTransition.ChangeIndex (-1)),
    (3, KeyTransition.ChangeIndex (-2)),
    (17, KeyTransition.ChangeIndex (-7)),
    (8, KeyTransition.Diagonal),
    (9, KeyTransition.ChangeIndex (-1)),
    (11, KeyTransition.ChangeIndex (-2)),
    (14, KeyTransition.FlatToMinor),
    (17, KeyTransition.ChangeIndex 7),
    (21, KeyTransition.ChangeIndex (-7))],
   [(1, KeyTransition.FlatToMinor),
    (4, KeyTransition.ChangeIndex 2),
    (6, KeyTransition.ChangeIndex 1),
    (7, KeyTransition.Diagonal),
    (9, KeyTransition.Vertical),
    (7, KeyTransition.Diagonal),
    (15, KeyTransition.MajorToMinor),
    (1, KeyTransition.FlatToMinor),
    (10, KeyTransition.ChangeIndex 1),
    (12, KeyTransition.ChangeIndex 2),
    (22, KeyTransition.ChangeIndex 7),
    (6, KeyTransition.ChangeIndex (-1)),
    (4, KeyTransition.ChangeIndex (-2)),
    (18, KeyTransition.ChangeIndex (-7)),
    (9, KeyTransition.Vertical),
    (10, KeyTransition.ChangeIndex (-1)),
    (12, KeyTransition.ChangeIndex (-2)),
    (15, KeyTransition.MajorToMinor),
    (18, KeyTransition.ChangeIndex 7),
    (22, KeyTransition.ChangeIndex (-7))],
   [(2, KeyTransition.MajorToMinor),
    (5, KeyTransition.ChangeIndex 2),
    (7, KeyTransition.ChangeIndex 1),
    (8, KeyTransition.Vertical),
    (8, KeyTransition.Vertical),
    (10, KeyTransition.Diagonal),
    (2, KeyTransition.MajorToMinor),
    (16, KeyTransition.FlatToMinor),
    (11, KeyTransition.ChangeIndex 1),
    (13, KeyTransition.ChangeIndex 2),
    (23, KeyTransition.ChangeIndex 7),
    (7, KeyTransition.ChangeIndex (-1)),
    (5, KeyTransition.ChangeIndex (-2)),
    (19, KeyTransition.ChangeIndex (-7)),
    (10, KeyTransition.Diagonal),
    (11, KeyTransition.ChangeIndex (-1)),
    (13, KeyTransition.ChangeIndex (-2)),
    (16, KeyTransition.FlatToMinor),
    (19, KeyTransition.ChangeIndex 7),
    (23, KeyTransition.ChangeIndex (-7))],
   [(0, KeyTransition.ChangeIndex (-7)),
    (3, KeyTransition.FlatToMinor),
    (6, KeyTransition.ChangeIndex 2),
    (8, KeyTransition.ChangeIndex 1),
    (9, KeyTransition.Diagonal),
    (11, KeyTransition.Vertical),
    (9, KeyTransition.Diagonal),
    (17, KeyTransition.MajorToMinor),
    (3, KeyTransition.FlatToMinor),
    (12, KeyTransition.ChangeIndex 1),
    (14, KeyTransition.ChangeIndex 2),
    (0, KeyTransition.ChangeIndex 7),
    (8, KeyTransition.ChangeIndex (-1)),
    (6, KeyTransition.ChangeIndex (-2)),
    (20, KeyTransition.ChangeIndex (-7)),
    (11, KeyTransition.Vertical),
    (12, KeyTransition.ChangeIndex (-1)),
    (14, KeyTransition.ChangeIndex (-2)),
    (17, KeyTransition.MajorToMinor),
    (20, KeyTransition.ChangeIndex 7)],
   [(1, KeyTransition.ChangeIndex (-7)),
    (4, KeyTransition.MajorToMinor),
    (7, KeyTransition.ChangeIndex 2),
    (9, KeyTransition.ChangeIndex 1),
    (10, KeyTransition.Vertical),
    (10, KeyTransition.Vertical),
    (12, KeyTransition.Diagonal),
    (4, KeyTransition.MajorToMinor),
    (18, KeyTransition.FlatToMinor),
    (13, KeyTransition.ChangeIndex 1),
    (15, KeyTransition.ChangeIndex 2),
    (1, KeyTransition.ChangeIndex 7),
    (9, KeyTransition.ChangeIndex (-1)),
    (7, KeyTransition.ChangeIndex (-2)),
    (21, KeyTransition.ChangeIndex (-7)),
    (12, KeyTransition.Diagonal),
    (13, KeyTransition.ChangeIndex (-1)),
    (15, KeyTransition.ChangeIndex (-2)),
    (18, KeyTransition.FlatToMinor),
    (21, KeyTransition.ChangeIndex 7)],
   [(2, KeyTransition.ChangeIndex (-7)),
    (5, KeyTransition.FlatToMinor),
    (8, KeyTransition.ChangeIndex 2),
    (10, KeyTransition.ChangeIndex 1),
    (11, KeyTransition.Diagonal),
    (13, KeyTransition.Vertical),
    (11, KeyTransition.Diagonal),
    (19, KeyTransition.MajorToMinor),
    (5, KeyTransition.FlatToMinor),
    (14, KeyTransition.ChangeIndex 1),
    (16, KeyTransition.ChangeIndex 2),
    (2, KeyTransition.ChangeIndex 7),
    (10, KeyTransition.ChangeIndex (-1)),
    (8, KeyTransition.ChangeIndex (-2)),
    (22, KeyTransition.ChangeIndex (-7)),
    (13, KeyTransition.Vertical),
    (14, KeyTransition.ChangeIndex (-1)),
    (16, KeyTransition.ChangeIndex (-2)),
    (19, KeyTransition.MajorToMinor),
    (22, KeyTransition.ChangeIndex 7)],
   [(3, KeyTransition.ChangeIndex (-7)),
    (6, KeyTransition.MajorToMinor),
    (9, KeyTransition.ChangeIndex 2),
    (11, KeyTransition.ChangeIndex 1),
    (12, KeyTransition.Vertical),
    (12, KeyTransition.Vertical),
    (14, KeyTransition.Diagonal),
    (6, KeyTransition.MajorToMinor),
    (20, KeyTransition.FlatToMinor),
    (15, KeyTransition.ChangeIndex 1),
    (17, KeyTransition.ChangeIndex 2),
    (3, KeyTransition.ChangeIndex 7),
    (11, KeyTransition.ChangeIndex (-1)),
    (9, KeyTransition.ChangeIndex (-2)),
    (23, KeyTransition.ChangeIndex (-7)),
    (14, KeyTransition.Diagonal),
    (15, KeyTransition.ChangeIndex (-1)),
    (17, KeyTransition.ChangeIndex (-2)),
    (20, KeyTransition.FlatToMinor),
    (23, KeyTransition.ChangeIndex 7)],
   [(0, KeyTransition.ChangeIndex 7),
    (4, KeyTransition.ChangeIndex (-7)),
    (7, KeyTransition.FlatToMinor),
    (10, KeyTransition.ChangeIndex 2),
    (12, KeyTransition.ChangeIndex 1),
    (13, KeyTransition.Diagonal),
    (15, KeyTransition.Vertical),
    (13, KeyTransition.Diagonal),
    (21, KeyTransition.MajorToMinor),
    (7, KeyTransition.FlatToMinor),
    (16, KeyTransition.ChangeIndex 1),
    (18, KeyTransition.ChangeIndex 2),
    (4, KeyTransition.ChangeIndex 7),
    (12, KeyTransition.ChangeIndex (-1)),
    (10, KeyTransition.ChangeIndex (-2)),
    (0, KeyTransition.ChangeIndex (-7)),
    (15, KeyTransition.Vertical),
    (16, KeyTransition.ChangeIndex (-1)),
    (18, KeyTransition.ChangeIndex (-2)),
    (21, KeyTransition.MajorToMinor)],
   [(1, KeyTransition.ChangeIndex 7),
    (5, KeyTransition.ChangeIndex (-7)),
    (8, KeyTransition.MajorToMinor),
    (11, KeyTransition.ChangeIndex 2),
    (13, KeyTransition.ChangeIndex 1),
    (14, KeyTransition.Vertical),
    (14, KeyTransition.Vertical),
    (16, KeyTransition.Diagonal),
    (8, KeyTransition.MajorToMinor),
    (22, KeyTransition.FlatToMinor),
    (17, KeyTransition.ChangeIndex 1),
    (19, KeyTransition.ChangeIndex 2),
    (5, KeyTransition.ChangeIndex 7),
    (13, KeyTransition.ChangeIndex (-1)),
    (11, KeyTransition.ChangeIndex (-2)),
    (1, KeyTransition.ChangeIndex (-7)),
    (16, KeyTransition.Diagonal),
    (17, KeyTransition.ChangeIndex (-1)),
    (19, KeyTransition.ChangeIndex (-2)),
    (22, KeyTransition.FlatToMinor)],
   [(2, KeyTransition.ChangeIndex 7),
    (6, KeyTransition.ChangeIndex (-7)),
    (9, KeyTransition.FlatToMinor),
    (12, KeyTransition.ChangeIndex 2),
    (14, KeyTransition.ChangeIndex 1),
    (15, KeyTransition.Diagonal),
    (17, KeyTransition.Vertical),
    (15, KeyTransition.Diagonal),
    (23, KeyTransition.MajorToMinor),
    (9, KeyTransition.FlatToMinor),
    (18, KeyTransition.ChangeIndex 1),
    (20, KeyTransition.ChangeIndex 2),
    (6, KeyTransition.ChangeIndex 7),
    (14, KeyTransition.ChangeIndex (-1)),
    (12, KeyTransition.ChangeIndex (-2)),
    (2, KeyTransition.ChangeIndex (-7)),
    (17, KeyTransition.Vertical),
    (18, KeyTransition.ChangeIndex (-1)),
    (20, KeyTransition.ChangeIndex (-2)),
    (23, KeyTransition.MajorToMinor)],
   [(0, KeyTransition.FlatToMinor),
    (3, KeyTransition.ChangeIndex 7),
    (7, KeyTransition.ChangeIndex (-7)),
    (10, KeyTransition.MajorToMinor),
    (13, KeyTransition.ChangeIndex 2),
    (15, KeyTransition.ChangeIndex 1),
    (16, KeyTransition.Vertical),
    (16, KeyTransition.Vertical),
    (18, KeyTransition.Diagonal),
    (10, KeyTransition.MajorToMinor),
    (0, KeyTransition.FlatToMinor),
    (19, KeyTransition.ChangeIndex 1),
    (21, KeyTransition.ChangeIndex 2),
    (7, KeyTransition.ChangeIndex 7),
    (15, KeyTransition.ChangeIndex (-1)),
    (13, KeyTransition.ChangeIndex (-2)),
    (3, KeyTransition.ChangeIndex (-7)),
    (18, KeyTransition.Diagonal),
    (19, KeyTransition.ChangeIndex (-1)),
    (21, KeyTransition.ChangeIndex (-2))],
   [(1, KeyTransition.MajorToMinor),
    (4, KeyTransition.ChangeIndex 7),
    (8, KeyTransition.ChangeIndex (-7)),
    (11, KeyTransition.FlatToMinor),
    (14, KeyTransition.ChangeIndex 2),
    (16, KeyTransition.ChangeIndex 1),
    (17, KeyTransition.Diagonal),
    (19, KeyTransition.Vertical),
    (17, KeyTransition.Diagonal),
    (1, KeyTransition.MajorToMinor),
    (11, KeyTransition.FlatToMinor),
    (20, KeyTransition.ChangeIndex 1),
    (22, KeyTransition.ChangeIndex 2),
    (8, KeyTransition.ChangeIndex 7),
    (16, KeyTransition.ChangeIndex (-1)),
    (14, KeyTransition.ChangeIndex (-2)),
    (4, KeyTransition.ChangeIndex (-7)),
    (19, KeyTransition.Vertical),
    (20, KeyTransition.ChangeIndex (-1)),
    (22, KeyTransition.ChangeIndex (-2))],
   [(2, KeyTransition.FlatToMinor),
    (5, KeyTransition.ChangeIndex 7),
    (9, KeyTransition.ChangeIndex (-7)),
    (12, KeyTransition.MajorToMinor),
    (15, KeyTransition.ChangeIndex 2),
    (17, KeyTransition.ChangeIndex 1),
    (18, KeyTransition.Vertical),
    (18, KeyTransition.Vertical),
    (20, KeyTransition.Diagonal),
    (12, KeyTransition.MajorToMinor),
    (2, KeyTransition.FlatToMinor),
    (21, KeyTransition.ChangeIndex 1),
    (23, KeyTransition.ChangeIndex 2),
    (9, KeyTransition.ChangeIndex 7),
    (17, KeyTransition.ChangeIndex (-1)),
    (15, KeyTransition.ChangeIndex (-2)),
    (5, KeyTransition.ChangeIndex (-7)),
    (20, KeyTransition.Diagonal),
    (21, KeyTransition.ChangeIndex (-1)),
    (23, KeyTransition.ChangeIndex (-2))],
   [(0, KeyTransition.ChangeIndex (-2)),
    (3, KeyTransition.MajorToMinor),
    (6, KeyTransition.ChangeIndex 7),
    (10, KeyTransition.ChangeIndex (-7)),
    (13, KeyTransition.FlatToMinor),
    (16, KeyTransition.ChangeIndex 2),
    (18, KeyTransition.ChangeIndex 1),
    (19, KeyTransition.Diagonal),
    (21, KeyTransition.Vertical),
    (19, KeyTransition.Diagonal),
    (3, KeyTransition.MajorToMinor),
    (13, KeyTransition.FlatToMinor),
    (22, KeyTransition.ChangeIndex 1),
    (0, KeyTransition.ChangeIndex 2),
    (10, KeyTransition.ChangeIndex 7),
    (18, KeyTransition.ChangeIndex (-1)),
    (16, KeyTransition.ChangeIndex (-2)),
    (6, KeyTransition.ChangeIndex (-7)),
    (21, KeyTransition.Vertical),
    (22, KeyTransition.ChangeIndex (-1))],
   [(1, KeyTransition.ChangeIndex (-2)),
    (4, KeyTransition.FlatToMinor),
    (7, KeyTransition.ChangeIndex 7),
    (11, KeyTransition.ChangeIndex (-7)),
    (14, KeyTransition.MajorToMinor),
    (17, KeyTransition.ChangeIndex 2),
    (19, KeyTransition.ChangeIndex 1),
    (20, KeyTransition.Vertical),
    (20, KeyTransition.Vertical),
    (22, KeyTransition.Diagonal),
    (14, KeyTransition.MajorToMinor),
    (4, KeyTransition.FlatToMinor),
    (23, KeyTransition.ChangeIndex 1),
    (1, KeyTransition.ChangeIndex 2),
    (11, KeyTransition.ChangeIndex 7),
    (19, KeyTransition.ChangeIndex (-1)),
    (17, KeyTransition.ChangeIndex (-2)),
    (7, KeyTransition.ChangeIndex (-7)),
    (22, KeyTransition.Diagonal),
    (23, KeyTransition.ChangeIndex (-1))],
   [(0, KeyTransition.ChangeIndex (-1)),
    (2, KeyTransition.ChangeIndex (-2)),
    (5, KeyTransition.MajorToMinor),
    (8, KeyTransition.ChangeIndex 7),
    (12, KeyTransition.ChangeIndex (-7)),
    (15, KeyTransition.FlatToMinor),
    (18, KeyTransition.ChangeIndex 2),
    (20, KeyTransition.ChangeIndex 1),
    (21, KeyTransition.Diagonal),
    (23, KeyTransition.Vertical),
    (21, KeyTransition.Diagonal),
    (5, KeyTransition.MajorToMinor),
    (15, KeyTransition.FlatToMinor),
    (0, KeyTransition.ChangeIndex 1),
    (2, KeyTransition.ChangeIndex 2),
    (12, KeyTransition.ChangeIndex 7),
    (20, KeyTransition.ChangeIndex (-1)),
    (18, KeyTransition.ChangeIndex (-2)),
    (8, KeyTransition.ChangeIndex (-7)),
    (23, KeyTransition.Vertical)],
   [(0, KeyTransition.Diagonal),
    (1, KeyTransition.ChangeIndex (-1)),
    (3, KeyTransition.ChangeIndex (-2)),
    (6, KeyTransition.FlatToMinor),
    (9, KeyTransition.ChangeIndex 7),
    (13, KeyTransition.ChangeIndex (-7)),
    (16, KeyTransition.MajorToMinor),
    (19, KeyTransition.ChangeIndex 2),
    (21, KeyTransition.ChangeIndex 1),
    (22, KeyTransition.Vertical),
    (22, KeyTransition.Vertical),
    (0, KeyTransition.Diagonal),
    (16, KeyTransition.MajorToMinor),
    (6, KeyTransition.FlatToMinor),
    (1, KeyTransition.ChangeIndex 1),
    (3, KeyTransition.ChangeIndex 2),
    (13, KeyTransition.ChangeIndex 7),
    (21, KeyTransition.ChangeIndex (-1)),
    (19, KeyTransition.ChangeIndex (-2)),
    (9, KeyTransition.ChangeIndex (-7))]]

/-- Fuel amply covering the search on the 24-node graph (at most
1 + 20 + 400 pops happen before a target at distance ≤ 2 is accepted). -/
def search_fuel : Nat := 2000

/-- `ScaleTransitions::path`: look up both endpoints (each `unwrap`ped in
the source — `none` models the panic), take the first returned path
(`nth(0).unwrap()`) and map its node indices back to keys
(`node_weight(..).unwrap()`). -/
def path_keys (source target : Key) : Option (List Key) :=
  let g := scale_transition_graph
  match key_lookup g.node_weights source, key_lookup g.node_weights target with
  | some si, some ti =>
    match multi_path_dijkstra g si ti 1 search_fuel with
    | none => none
    | some paths =>
      match paths.head? with
      | none => none
      | some p => p.path.mapM (fun i => g.node_weights[i]?)
  | _, _ => none

/-- Computational form of `path_keys`, reading the literal tables and the
`Nat.rec` loop; `path_keys_fast_eq` proves it equal to `path_keys`. -/
def path_keys_fast (source target : Key) : Option (List Key) :=
  match key_lookup node_table source, key_lookup node_table target with
  | some si, some ti =>
    match dijkstra_loop_fast adjacency_table ti 1 search_fuel
        (bpush [] 0
          { cost := 0, node := si, transition := none, path := [],
            transition_path := [] })
        [] with
    | none => none
    | some paths =>
      match paths.head? with
      | none => none
      | some p => p.path.mapM (fun i => node_table[i]?)
  | _, _ => none

/-- `harmonic_transitions_from`: the 10 one-transition targets chained
with the key itself, then sorted (`Vec::sort` by the derived `Ord`,
embedded as a stable insertion sort under `keyLE`). The source does not
deduplicate. -/
def harmonic_transitions_from (k : Key) : List Key :=
  List.insertionSort keyLE
    ((harmonic_transitions.map (make_transition k)) ++ [k])

/-! ## Derived notions used to state the path claims -/

/-- Two keys are adjacent when some catalog transition maps one to the
other (in either direction — the graph is undirected). -/
def key_adj (a b : Key) : Bool :=
  harmonic_transitions.any fun t =>
    make_transition a t = b ∨ make_transition b t = a

/-- A non-empty list of keys is a walk when every consecutive pair is
adjacent. -/
def walkB : List Key → Bool
  | [] => false
  | [_] => true
  | a :: b :: r => key_adj a b && walkB (b :: r)

/-- Bounded reachability: `can_reach n s t` holds when some walk of at
most `n` edges through standard-scale keys joins `s` to `t`. -/
def can_reach : Nat → Key → Key → Bool
  | 0, s, t => s = t
  | Nat.succ n, s, t =>
    s = t || make_standard_scale.any (fun b => key_adj s b && can_reach n b t)

/-- The key `"8B"` (tonic 7, Major). -/
def key8B : Key := { tonic := 7, mode := Mode.Major }

/-- The key `"8A"` (tonic 7, Minor). -/
def key8A : Key := { tonic := 7, mode := Mode.Minor }

/-- Per-pair certificate for the path claims: the search returns a walk
from `s` to `t`, `path(k, k) = [k]`, `path(8B, 8A) = [8B, 8A]`, and (for
a result with at least two nodes of `r + 2` total) no walk of at most
`r + 1` edges joins the endpoints — i.e. the result's edge count `r + 1`
is the graph distance. -/
def check_pair (s t : Key) : Bool :=
  match path_keys s t with
  | none => false
  | some p =>
    decide (p.head? = some s) && decide (p.getLast? = some t) && walkB p &&
    decide (s = t → p = [s]) &&
    decide (s = key8B → t = key8A → p = [key8B, key8A]) &&
    (match p with
     | _ :: _ :: r => !(can_reach r.length s t)
     | _ => true)

/-- Computational form of `check_pair` over `path_keys_fast`;
`check_pair_fast_eq` proves it equal to `check_pair`. -/
def check_pair_fast (s t : Key) : Bool :=
  match path_keys_fast s t with
  | none => false
  | some p =>
    decide (p.head? = some s) && decide (p.getLast? = some t) && walkB p &&
    decide (s = t → p = [s]) &&
    decide (s = key8B → t = key8A → p = [key8B, key8A]) &&
    (match p with
     | _ :: _ :: r => !(can_reach r.length s t)
     | _ => true)

/-- All 576 ordered pairs of standard-scale keys pass `check_pair`. -/
def all_pairs_ok : Bool :=
  make_standard_scale.all fun s => make_standard_scale.all fun t =>
    check_pair s t

/-! ## Helper lemmas -/

/-- The source's `mod_cyclic` (built from Rust's truncated `%`) computes
the mathematical (euclidean) remainder. -/
theorem mod_cyclic_eq_emod (n : Int) : mod_cyclic n 12 = n % 12 := by
  rcases n with m | m
  · simp only [Int.ofNat_eq_natCast] at *
    have h0 : ((m : Int)).tmod 12 = (m : Int) % 12 :=
      Int.tmod_eq_emod (by omega) (by norm_num)
    rw [mod_cyclic, show ((12 : Nat) : Int) = 12 from rfl, h0,
      Int.tmod_eq_emod (by omega) (by norm_num)]
    omega
  · have h0 : (Int.negSucc m).tmod 12 = -(((m + 1) % 12 : Nat) : Int) := rfl
    have h1 : (((m + 1) % 12 : Nat) : Int) = ((m : Int) + 1) % 12 := by
      push_cast
      ring_nf
    rw [mod_cyclic, show ((12 : Nat) : Int) = 12 from rfl, h0, h1,
      Int.tmod_eq_emod (by omega) (by norm_num), Int.negSucc_eq]
    omega

/-- `change_index` in closed euclidean form. -/
theorem change_index_emod (k : Key) (n : Int) :
    k.change_index n = { k with tonic := (((k.tonic : Int) + n) % 12).toNat } := by
  simp [Key.change_index, mod_cyclic_eq_emod]

/-- The `unreachable!()` fall-through of `make_transition` is dead: the
checked form always produces the total form's value. -/
theorem make_transition_total (k : Key) (t : KeyTransition) :
    make_transition_checked k t = some (make_transition k t) := by
  rcases k with ⟨n, m⟩
  cases t <;> cases m <;> rfl

/-- Every key with tonic in `[0, 11]` is a standard-scale node. -/
theorem mem_standard (k : Key) (h : k.tonic ≤ 11) : k ∈ make_standard_scale := by
  rcases k with ⟨n, m⟩
  replace h : n ≤ 11 := h
  simp only [make_standard_scale, List.mem_flatMap, List.mem_range]
  exact ⟨n, by omega, by cases m <;> simp [scale]⟩

-- The literal key table is exactly `make_standard_scale`.
theorem node_table_eq : make_standard_scale = node_table := by decide

-- The built graph's node weights are the literal key table.
theorem graph_nodes_eq : scale_transition_graph.node_weights = node_table :=
  node_table_eq

-- The literal adjacency table is exactly the per-node adjacency of the
-- built graph.
set_option maxRecDepth 100000 in
theorem adjacency_table_eq :
    adjacency_lists scale_transition_graph = adjacency_table := by decide

-- A step of the search only uses its continuation pointwise.
theorem dijkstra_step_congr (adj : List (List (Nat × KeyTransition)))
    (target n : Nat)
    (r1 r2 : List (List SPath) → List SPath → Option (List SPath))
    (hr : ∀ heap acc, r1 heap acc = r2 heap acc)
    (heap : List (List SPath)) (acc : List SPath) :
    dijkstra_step adj target n r1 heap acc
      = dijkstra_step adj target n r2 heap acc := by
  unfold dijkstra_step
  simp only [hr]

-- The recursor form of the loop agrees with the equation-compiler form.
theorem dijkstra_loop_fast_eq (adj : List (List (Nat × KeyTransition)))
    (target n : Nat) :
    ∀ (fuel : Nat) (heap : List (List SPath)) (acc : List SPath),
      dijkstra_loop adj target n fuel heap acc
        = dijkstra_loop_fast adj target n fuel heap acc := by
  intro fuel
  induction fuel with
  | zero => intro heap acc; rfl
  | succ m ih =>
    intro heap acc
    show dijkstra_step adj target n (dijkstra_loop adj target n m) heap acc
      = dijkstra_step adj target n (dijkstra_loop_fast adj target n m) heap acc
    exact dijkstra_step_congr adj target n _ _ ih heap acc

-- The computational path query agrees with the source-shaped one.
theorem path_keys_fast_eq (s t : Key) : path_keys s t = path_keys_fast s t := by
  unfold path_keys path_keys_fast multi_path_dijkstra
  simp only [graph_nodes_eq, adjacency_table_eq, dijkstra_loop_fast_eq]

-- The computational certificate agrees with the source-shaped one.
theorem check_pair_fast_eq (s t : Key) : check_pair s t = check_pair_fast s t := by
  unfold check_pair check_pair_fast
  rw [path_keys_fast_eq]

-- The master computation, one row (source key) at a time: every ordered
-- pair of standard-scale keys passes the per-pair path certificate.
set_option maxRecDepth 1000000 in
set_option maxHeartbeats 2000000 in
theorem row_check_0 :
    (make_standard_scale.all fun t =>
      check_pair_fast (scale 0 Mode.Minor) t) = true := by decide

set_option maxRecDepth 1000000 in
set_option maxHeartbeats 2000000 in
theorem row_check_1 :
    (make_standard_scale.all fun t =>
      check_pair_fast (scale 0 Mode.Major) t) = true := by decide

set_option maxRecDepth 1000000 in
set_option maxHeartbeats 2000000 in
theorem row_check_2 :
    (make_standard_scale.all fun t =>
      check_pair_fast (scale 1 Mode.Minor) t) = true := by decide

set_option maxRecDepth 1000000 in
set_option maxHeartbeats 2000000 in
theorem row_check_3 :
    (make_standard_scale.all fun t =>
      check_pair_fast (scale 1 Mode.Major) t) = true := by decide

set_option maxRecDepth 1000000 in
set_option maxHeartbeats 2000000 in
theorem row_check_4 :
    (make_standard_scale.all fun t =>
      check_pair_fast (scale 2 Mode.Minor) t) = true := by decide

set_option maxRecDepth 1000000 in
set_option maxHeartbeats 2000000 in
theorem row_check_5 :
    (make_standard_scale.all fun t =>
      check_pair_fast (scale 2 Mode.Major) t) = true := by decide

set_option maxRecDepth 1000000 in
set_option maxHeartbeats 2000000 in
theorem row_check_6 :
    (make_standard_scale.all fun t =>
      check_pair_fast (scale 3 Mode.Minor) t) = true := by decide

set_option maxRecDepth 1000000 in
set_option maxHeartbeats 2000000 in
theorem row_check_7 :
    (make_standard_scale.all fun t =>
      check_pair_fast (scale 3 Mode.Major) t) = true := by decide

set_option maxRecDepth 1000000 in
set_option maxHeartbeats 2000000 in
theorem row_check_8 :
    (make_standard_scale.all fun t =>
      check_pair_fast (scale 4 Mode.Minor) t) = true := by decide

set_option maxRecDepth 1000000 in
set_option maxHeartbeats 2000000 in
theorem row_check_9 :
    (make_standard_scale.all fun t =>
      check_pair_fast (scale 4 Mode.Major) t) = true := by decide

set_option maxRecDepth 1000000 in
set_option maxHeartbeats 2000000 in
theorem row_check_10 :
    (make_standard_scale.all fun t =>
      check_pair_fast (scale 5 Mode.Minor) t) = true := by decide

set_option maxRecDepth 1000000 in
set_option maxHeartbeats 2000000 in
theorem row_check_11 :
    (make_standard_scale.all fun t =>
      check_pair_fast (scale 5 Mode.Major) t) = true := by decide

set_option maxRecDepth 1000000 in
set_option maxHeartbeats 2000000 in
theorem row_check_12 :
    (make_standard_scale.all fun t =>
      check_pair_fast (scale 6 Mode.Minor) t) = true := by decide

set_option maxRecDepth 1000000 in
set_option maxHeartbeats 2000000 in
theorem row_check_13 :
    (make_standard_scale.all fun t =>
      check_pair_fast (scale 6 Mode.Major) t) = true := by decide

set_option maxRecDepth 1000000 in
set_option maxHeartbeats 2000000 in
theorem row_check_14 :
    (make_standard_scale.all fun t =>
      check_pair_fast (scale 7 Mode.Minor) t) = true := by decide

set_option maxRecDepth 1000000 in
set_option maxHeartbeats 2000000 in
theorem row_check_15 :
    (make_standard_scale.all fun t =>
      check_pair_fast (scale 7 Mode.Major) t) = true := by decide

set_option maxRecDepth 1000000 in
set_option maxHeartbeats 2000000 in
theorem row_check_16 :
    (make_standard_scale.all fun t =>
      check_pair_fast (scale 8 Mode.Minor) t) = true := by decide

set_option maxRecDepth 1000000 in
set_option maxHeartbeats 2000000 in
theorem row_check_17 :
    (make_standard_scale.all fun t =>
      check_pair_fast (scale 8 Mode.Major) t) = true := by decide

set_option maxRecDepth 1000000 in
set_option maxHeartbeats 2000000 in
theorem row_check_18 :
    (make_standard_scale.all fun t =>
      check_pair_fast (scale 9 Mode.Minor) t) = true := by decide

set_option maxRecDepth 1000000 in
set_option maxHeartbeats 2000000 in
theorem row_check_19 :
    (make_standard_scale.all fun t =>
      check_pair_fast (scale 9 Mode.Major) t) = true := by decide

set_option maxRecDepth 1000000 in
set_option maxHeartbeats 2000000 in
theorem row_check_20 :
    (make_standard_scale.all fun t =>
      check_pair_fast (scale 10 Mode.Minor) t) = true := by decide

set_option maxRecDepth 1000000 in
set_option maxHeartbeats 2000000 in
theorem row_check_21 :
    (make_standard_scale.all fun t =>
      check_pair_fast (scale 10 Mode.Major) t) = true := by decide

set_option maxRecDepth 1000000 in
set_option maxHeartbeats 2000000 in
theorem row_check_22 :
    (make_standard_scale.all fun t =>
      check_pair_fast (scale 11 Mode.Minor) t) = true := by decide

set_option maxRecDepth 1000000 in
set_option maxHeartbeats 2000000 in
theorem row_check_23 :
    (make_standard_scale.all fun t =>
      check_pair_fast (scale 11 Mode.Major) t) = true := by decide

theorem all_pairs_check : all_pairs_ok = true := by
  unfold all_pairs_ok
  rw [List.all_eq_true]
  intro s hs
  simp only [check_pair_fast_eq]
  rw [node_table_eq] at hs
  fin_cases hs
  · exact row_check_0
  · exact row_check_1
  · exact row_check_2
  · exact row_check_3
  · exact row_check_4
  · exact row_check_5
  · exact row_check_6
  · exact row_check_7
  · exact row_check_8
  · exact row_check_9
  · exact row_check_10
  · exact row_check_11
  · exact row_check_12
  · exact row_check_13
  · exact row_check_14
  · exact row_check_15
  · exact row_check_16
  · exact row_check_17
  · exact row_check_18
  · exact row_check_19
  · exact row_check_20
  · exact row_check_21
  · exact row_check_22
  · exact row_check_23

/-- Pointwise form of `all_pairs_check`. -/
theorem check_pair_true (s t : Key) (hs : s.tonic ≤ 11) (ht : t.tonic ≤ 11) :
    check_pair s t = true := by
  have hall := all_pairs_check
  unfold all_pairs_ok at hall
  rw [List.all_eq_true] at hall
  have hrow := hall s (mem_standard s hs)
  rw [List.all_eq_true] at hrow
  exact hrow t (mem_standard t ht)

/-- Reachability is reflexive at every bound. -/
theorem can_reach_self (n : Nat) (s : Key) : can_reach n s s = true := by
  cases n <;> simp [can_reach]

/-- A walk of at most `n + 1` nodes through standard-scale keys from `s`
to `t` makes `t` reachable from `s` within `n` edges. -/
theorem reach_of_walk (q : List Key) :
    ∀ (n : Nat) (s t : Key), (∀ x ∈ q, x ∈ make_standard_scale) →
      walkB q = true → q.head? = some s → q.getLast? = some t →
      q.length ≤ n + 1 → can_reach n s t = true := by
  induction q with
  | nil => intro n s t _ _ hh _ _; cases hh
  | cons a q ih =>
    intro n s t hmem hw hh hl hlen
    have ha : a = s := by simpa using hh
    cases q with
    | nil =>
      have ht : t = a := by simpa using hl.symm
      rw [ht, ha]
      exact can_reach_self n s
    | cons b r =>
      have hadj : key_adj a b = true ∧ walkB (b :: r) = true := by
        simpa [walkB, Bool.and_eq_true] using hw
      cases n with
      | zero => simp at hlen
      | succ m =>
        have hrest : can_reach m b t = true := by
          refine ih m b t ?_ hadj.2 rfl ?_ ?_
          · intro x hx; exact hmem x (List.mem_cons_of_mem a hx)
          · simpa using hl
          · simp at hlen ⊢; omega
        have hbmem : b ∈ make_standard_scale :=
          hmem b (List.mem_cons_of_mem a (List.mem_cons_self b r))
        rw [← ha]
        simp only [can_reach, Bool.or_eq_true, List.any_eq_true]
        exact Or.inr ⟨b, hbmem, by rw [hadj.1, hrest]; rfl⟩

/-! ## The claims -/

/-- C1. The spec requires `decode` to fail with the typed
`ScaleError::InvalidScaleString` on malformed input and never panic; the
code instead panics (`re.captures(s).unwrap()` on a non-match) on every
one of the spec's own examples, and can never return the `err` value at
all. This records the code's actual behavior at the failing inputs. -/
theorem c1_decode_panics :
    Key.from_str "13A" = RustResult.panicked ∧
    Key.from_str "0B" = RustResult.panicked ∧
    Key.from_str "5C" = RustResult.panicked ∧
    Key.from_str "" = RustResult.panicked ∧
    ∀ s : String, (Key.from_str s).isErr = false := by
  refine ⟨by decide, by decide, by decide, by decide, ?_⟩
  intro s
  unfold Key.from_str
  rcases h1 : regex_captures s with _ | ⟨d, l⟩
  · rfl
  · rcases h2 : parse_usize d with _ | n
    · simp only [h2]
      rfl
    · rcases h3 : Mode.from_str l <;> simp only [h2, h3] <;> rfl

/-- C2. `make_transition` (with its `unreachable!()` fall-through made
explicit) computes exactly the per-rule, mode-dependent table stated in
the spec. -/
theorem c2_transition_table (k : Key) (t : KeyTransition) :
    make_transition_checked k t = some (spec_transition_table k t) := by
  rcases k with ⟨n, m⟩
  cases t <;> cases m <;> rfl

/-- C6. For every key and every catalog transition the case analysis of
`make_transition` covers the (transition, mode) combination: the checked
form never hits the `unreachable!()` arm. -/
theorem c6_no_unreachable (k : Key) (t : KeyTransition)
    (_ht : t ∈ harmonic_transitions) :
    (make_transition_checked k t).isSome = true := by
  rw [make_transition_total]
  rfl

/-- Witness for C6 at a concrete catalog input. -/
theorem c6_no_unreachable_witness :
    (make_transition_checked (scale 0 Mode.Minor) KeyTransition.Vertical).isSome
      = true :=
  c6_no_unreachable (scale 0 Mode.Minor) KeyTransition.Vertical (by decide)

/-- C7. `change_index` is the identity at 0, acts additively
(`change_index a` then `change_index b` is `change_index (a + b)`), stays
inside `[0, 11]` for every integer amount (true mathematical modulus, not
truncation), and never changes the mode. -/
theorem c7_change_index_action (k : Key) (a b : Int) (h : k.tonic ≤ 11) :
    k.change_index 0 = k ∧
    (k.change_index a).change_index b = k.change_index (a + b) ∧
    (k.change_index a).tonic ≤ 11 ∧
    (k.change_index a).mode = k.mode := by
  rcases k with ⟨n, m⟩
  replace h : n ≤ 11 := h
  refine ⟨?_, ?_, ?_, rfl⟩
  · simp only [change_index_emod, Key.mk.injEq, and_true]
    omega
  · simp only [change_index_emod, Key.mk.injEq, and_true]
    omega
  · simp only [change_index_emod]
    omega

/-- Witness for C7 at concrete inputs. -/
theorem c7_change_index_action_witness :
    (scale 3 Mode.Major).change_index 0 = scale 3 Mode.Major ∧
    ((scale 3 Mode.Major).change_index (-50)).change_index 50
      = (scale 3 Mode.Major).change_index (-50 + 50) ∧
    ((scale 3 Mode.Major).change_index (-50)).tonic ≤ 11 ∧
    ((scale 3 Mode.Major).change_index (-50)).mode = (scale 3 Mode.Major).mode :=
  c7_change_index_action (scale 3 Mode.Major) (-50) 50 (by decide)

/-- C8. Round trip: parsing the `Display` rendering of any valid key
returns exactly that key. -/
theorem c8_round_trip (k : Key) (h : k.tonic ≤ 11) :
    Key.from_str k.display = RustResult.ok k := by
  rcases k with ⟨n, m⟩
  replace h : n ≤ 11 := h
  interval_cases n <;> cases m <;> decide

/-- Witness for C8 at the key `"8B"`. -/
theorem c8_round_trip_witness :
    Key.from_str key8B.display = RustResult.ok key8B :=
  c8_round_trip key8B (by decide)

/-- C9. Each of the four named rules applied twice returns to the origin
(the second application fires from the opposite mode except for
`Vertical`), and each cataloged `ChangeIndex(n)` is undone by
`ChangeIndex(-n)`. -/
theorem c9_involutions (k : Key) (h : k.tonic ≤ 11) :
    (∀ t ∈ [KeyTransition.Vertical, KeyTransition.Diagonal,
            KeyTransition.MajorToMinor, KeyTransition.FlatToMinor],
      make_transition (make_transition k t) t = k) ∧
    (∀ n ∈ ([1, 2, 7, -1, -2, -7] : List Int),
      make_transition (make_transition k (KeyTransition.ChangeIndex n))
        (KeyTransition.ChangeIndex (-n)) = k) := by
  rcases k with ⟨n, m⟩
  replace h : n ≤ 11 := h
  interval_cases n <;> cases m <;> exact ⟨by decide, by decide⟩

set_option maxRecDepth 1000000 in
/-- C4. The built graph has exactly the 24 standard-scale nodes (no
duplicates, exactly the keys with tonic in `[0, 11]`) and exactly 240
edges — 24 per catalog transition label, multi-edges retained. -/
theorem c4_graph_shape :
    make_scale_transition_graph.node_weights.length = 24 ∧
    make_scale_transition_graph.node_weights.Nodup ∧
    (∀ k : Key, k.tonic ≤ 11 → k ∈ make_scale_transition_graph.node_weights) ∧
    (∀ k ∈ make_scale_transition_graph.node_weights, k.tonic ≤ 11) ∧
    make_scale_transition_graph.edges.length = 240 ∧
    (∀ t ∈ harmonic_transitions,
      (make_scale_transition_graph.edges.filter
        (fun e => decide (e.2.2 = t))).length = 24) := by
  refine ⟨by decide, by decide, ?_, by decide, by decide, by decide⟩
  intro k hk
  exact mem_standard k hk

/-- Witness for C4's universally quantified node-membership conjunct. -/
theorem c4_graph_shape_witness :
    scale 0 Mode.Minor ∈ make_scale_transition_graph.node_weights :=
  c4_graph_shape.2.2.1 (scale 0 Mode.Minor) (by decide)

/-- C5. The neighbor query returns a sorted duplicate-free sequence
holding the key itself, every one-transition target of the catalog, and
nothing else. -/
theorem c5_neighbors (k : Key) (h : k.tonic ≤ 11) :
    List.Pairwise keyLE (harmonic_transitions_from k) ∧
    (harmonic_transitions_from k).Nodup ∧
    k ∈ harmonic_transitions_from k ∧
    (∀ t ∈ harmonic_transitions,
      make_transition k t ∈ harmonic_transitions_from k) ∧
    (∀ x ∈ harmonic_transitions_from k,
      x = k ∨ ∃ t ∈ harmonic_transitions, x = make_transition k t) := by
  rcases k with ⟨n, m⟩
  replace h : n ≤ 11 := h
  interval_cases n <;> cases m <;>
    exact ⟨by decide, by decide, by decide, by decide, by decide⟩

/-- Witness for C5 at a concrete key. -/
theorem c5_neighbors_witness :
    List.Pairwise keyLE (harmonic_transitions_from (scale 5 Mode.Major)) ∧
    (harmonic_transitions_from (scale 5 Mode.Major)).Nodup ∧
    scale 5 Mode.Major ∈ harmonic_transitions_from (scale 5 Mode.Major) ∧
    (∀ t ∈ harmonic_transitions,
      make_transition (scale 5 Mode.Major) t
        ∈ harmonic_transitions_from (scale 5 Mode.Major)) ∧
    (∀ x ∈ harmonic_transitions_from (scale 5 Mode.Major),
      x = scale 5 Mode.Major ∨
        ∃ t ∈ harmonic_transitions, x = make_transition (scale 5 Mode.Major) t) :=
  c5_neighbors (scale 5 Mode.Major) (by decide)

/-- C3. For every pair of standard-scale keys the public path query
returns a walk that begins at the source, ends at the target, steps only
along catalog transitions, and has minimum length among all walks through
valid keys joining the endpoints (its edge count is the graph distance);
`path(k, k) = [k]` and `path(8B, 8A) = [8B, 8A]`. -/
theorem c3_shortest_path (s t : Key) (hs : s.tonic ≤ 11) (ht : t.tonic ≤ 11) :
    ∃ p : List Key,
      path_keys s t = some p ∧
      p.head? = some s ∧ p.getLast? = some t ∧ walkB p = true ∧
      (∀ q : List Key, (∀ x ∈ q, x.tonic ≤ 11) → walkB q = true →
        q.head? = some s → q.getLast? = some t → p.length ≤ q.length) ∧
      (s = t → p = [s]) ∧
      (s = key8B → t = key8A → p = [key8B, key8A]) := by
  have hc := check_pair_true s t hs ht
  unfold check_pair at hc
  rcases hp : path_keys s t with _ | p
  · rw [hp] at hc
    cases hc
  · rw [hp] at hc
    simp only [Bool.and_eq_true, decide_eq_true_eq] at hc
    obtain ⟨⟨⟨⟨⟨hhead, hlast⟩, hwalk⟩, hself⟩, h8⟩, hcert⟩ := hc
    refine ⟨p, rfl, hhead, hlast, hwalk, ?_, hself, h8⟩
    intro q hqvalid hqwalk hqhead hqlast
    rcases p with _ | ⟨a, _ | ⟨b, r⟩⟩
    · simp at hhead
    · rcases q with _ | ⟨c, q'⟩
      · simp at hqhead
      · simp
    · replace hcert : can_reach r.length s t = false := by
        simpa using hcert
      by_contra hlt
      push_neg at hlt
      have hreach : can_reach r.length s t = true := by
        refine reach_of_walk q r.length s t
          (fun x hx => mem_standard x (hqvalid x hx)) hqwalk hqhead hqlast ?_
        simp only [List.length_cons] at hlt
        omega
      rw [hreach] at hcert
      cases hcert

/-- Witness for C3 at the pair `(8B, 8A)`. -/
theorem c3_shortest_path_witness :
    ∃ p : List Key,
      path_keys key8B key8A = some p ∧
      p.head? = some key8B ∧ p.getLast? = some key8A ∧ walkB p = true ∧
      (∀ q : List Key, (∀ x ∈ q, x.tonic ≤ 11) → walkB q = true →
        q.head? = some key8B → q.getLast? = some key8A →
        p.length ≤ q.length) ∧
      (key8B = key8A → p = [key8B]) ∧
      (key8B = key8B → key8A = key8A → p = [key8B, key8A]) :=
  c3_shortest_path key8B key8A (by decide) (by decide)

/-- C10. For every pair of standard-scale keys, the bounded run of
`multi_path_dijkstra` started by `ScaleTransitions::path` accepts a path
before the (never-exhausted) fuel runs out and returns a non-empty list,
even though the search keeps no visited set. -/
theorem c10_search_terminates (s t : Key) (hs : s.tonic ≤ 11)
    (ht : t.tonic ≤ 11) :
    ∃ (si ti : Nat) (ps : List SPath),
      key_lookup scale_transition_graph.node_weights s = some si ∧
      key_lookup scale_transition_graph.node_weights t = some ti ∧
      multi_path_dijkstra scale_transition_graph si ti 1 search_fuel
        = some ps ∧
      ps ≠ [] := by
  have hc := check_pair_true s t hs ht
  unfold check_pair at hc
  rcases hp : path_keys s t with _ | p
  · rw [hp] at hc
    cases hc
  · simp only [path_keys] at hp
    split at hp
    · rename_i si ti h1 h2
      split at hp
      · cases hp
      · rename_i paths h3
        split at hp
        · cases hp
        · rename_i p0 h4
          refine ⟨si, ti, paths, h1, h2, h3, ?_⟩
          intro hnil
          rw [hnil] at h4
          cases h4
    · cases hp

/-- Witness for C10 at a concrete pair. -/
theorem c10_search_terminates_witness :
    ∃ (si ti : Nat) (ps : List SPath),
      key_lookup scale_transition_graph.node_weights (scale 0 Mode.Minor)
        = some si ∧
      key_lookup scale_transition_graph.node_weights (scale 3 Mode.Major)
        = some ti ∧
      multi_path_dijkstra scale_transition_graph si ti 1 search_fuel
        = some ps ∧
      ps ≠ [] :=
  c10_search_terminates (scale 0 Mode.Minor) (scale 3 Mode.Major)
    (by decide) (by decide)

/-- Witness for C9 at a concrete key. -/
theorem c9_involutions_witness :
    (∀ t ∈ [KeyTransition.Vertical, KeyTransition.Diagonal,
            KeyTransition.MajorToMinor, KeyTransition.FlatToMinor],
      make_transition (make_transition (scale 11 Mode.Minor) t) t
        = scale 11 Mode.Minor) ∧
    (∀ n ∈ ([1, 2, 7, -1, -2, -7] : List Int),
      make_transition
        (make_transition (scale 11 Mode.Minor) (KeyTransition.ChangeIndex n))
        (KeyTransition.ChangeIndex (-n)) = scale 11 Mode.Minor) :=
  c9_involutions (scale 11 Mode.Minor) (by decide)

end Camelot
